import Mathlib

/-!
Shallow embedding of the authorization core of the `ai-job-readiness`
backend (Python/FastAPI), covering:

* `app/utils/jwt_utils.py` — token creation, verification and the
  read-only expiry queries (`JWTTokenManager`, `handle_token_error`,
  `validate_token_expiration`);
* `app/middleware/auth_middleware.py` — the request gate
  (`JWTAuthMiddleware.__init__ / dispatch / _should_skip_auth /
  _extract_token / _validate_token`);
* `app/api/roles.py` — `create_role`, `delete_role`,
  `assign_role_to_user`, `remove_role_from_user`;
* `app/schemas/role.py` — `RoleBase.validate_name`;
* `app/core/config.py` — the security settings defaults;
* `alembic/versions/f6f4914742e2_...py` — the `user_roles` table's
  `UNIQUE (user_id, role_id)` constraint, modelled as a commit-time check.

Modelling conventions:

* Machine time is an explicit `now : Int` parameter (unix seconds);
  `datetime.utcnow()`, `timedelta` and timestamp claims are all plain
  integers in seconds.
* A JWT string is modelled abstractly: either `garbage` (any string the
  `jwt` library fails to parse) or `signed claims secret` (a structurally
  well-formed token whose signature verifies exactly under `secret`).
  `jwt.decode(token, secret, algorithms=[...])` verifies the signature
  first and then the `exp` claim, as PyJWT does; decoding with
  `options={"verify_signature": False}` returns the claims of any
  structurally well-formed token and skips both checks.
* Python exceptions are explicit outcomes (`DecodeOutcome`, `Except`);
  functions the source makes total by `try/except` are total Lean
  functions.
-/

namespace AiJobReadiness

/-! ## Configuration (`app/core/config.py`, `SecuritySettings` defaults) -/

def secret_key : String := "your-secret-key-change-in-production"

def users_secret : String := "your-users-secret-change-in-production"

def access_token_expire_minutes : Int := 60

def refresh_token_expire_days : Int := 7

/-! ## JWT wire model -/

/-- The claim set the backend puts in a token (`sub`, `type`, `exp`, `iat`).
`exp` is optional because PyJWT accepts tokens without an `exp` claim. -/
structure Claims where
  sub : String
  type : Option String
  exp : Option Int
  iat : Int
deriving DecidableEq, Repr

/-- A token string as the `jwt` library sees it: either unparsable
(`garbage`) or structurally well formed with the claims it carries and
the unique secret its signature verifies under. -/
inductive Token where
  | garbage
  | signed (claims : Claims) (secret : String)
deriving DecidableEq, Repr

/-- Outcome of `jwt.decode(token, secret, algorithms=[...])`. -/
inductive DecodeOutcome where
  | ok (payload : Claims)
  | expiredSignatureError
  | invalidTokenError
deriving DecidableEq, Repr

/-- `jwt.decode` with signature verification: signature first (wrong
secret or garbage → `InvalidTokenError`), then the `exp` claim
(`exp < now` → `ExpiredSignatureError`, PyJWT's check with zero leeway). -/
def jwtDecode (secret : String) (now : Int) : Token → DecodeOutcome
  | .garbage => .invalidTokenError
  | .signed c s =>
    if s = secret then
      match c.exp with
      | some e => if e < now then .expiredSignatureError else .ok c
      | none => .ok c
    else .invalidTokenError

/-- `jwt.decode(token, options={"verify_signature": False})`: returns the
claims of any structurally well-formed token, checking neither the
signature nor `exp` (PyJWT disables `verify_exp` with `verify_signature`). -/
def jwtDecodeUnverified : Token → Option Claims
  | .garbage => none
  | .signed c _ => some c

/-! ## `JWTTokenManager` (`app/utils/jwt_utils.py`) -/

namespace JWTTokenManager

/-- `JWTTokenManager.create_access_token` (jwt_utils.py:27-72): expiry is
`now + expires_delta` if given, else `now + 60 * access_token_expire_minutes`
seconds; claims `{exp, sub, type: "access", iat: now}`; signed with
`settings.security.secret_key`. -/
def create_access_token (subject : String) (now : Int)
    (expires_delta : Option Int) : Token :=
  let expire : Int :=
    match expires_delta with
    | some d => now + d
    | none => now + 60 * access_token_expire_minutes
  .signed { sub := subject, type := some "access", exp := some expire, iat := now }
    secret_key

/-- `JWTTokenManager.create_refresh_token` (jwt_utils.py:74-114): expiry
`now + refresh_token_expire_days` days; claims
`{exp, sub, type: "refresh", iat: now}`; signed with
`settings.security.users_secret`. -/
def create_refresh_token (subject : String) (now : Int) : Token :=
  .signed { sub := subject, type := some "refresh",
            exp := some (now + 86400 * refresh_token_expire_days), iat := now }
    users_secret

/-- `JWTTokenManager.verify_access_token` (jwt_utils.py:116-149): decode
with `secret_key`; reject payloads whose `type` claim is not `"access"`;
every exception (`ExpiredSignatureError`, `InvalidTokenError`, anything
else) is caught and mapped to `None`. -/
def verify_access_token (now : Int) (t : Token) : Option Claims :=
  match jwtDecode secret_key now t with
  | .ok payload => if payload.type ≠ some "access" then none else some payload
  | .expiredSignatureError => none
  | .invalidTokenError => none

/-- `JWTTokenManager.verify_refresh_token` (jwt_utils.py:151-184): same
shape with `users_secret` and expected type `"refresh"`. -/
def verify_refresh_token (now : Int) (t : Token) : Option Claims :=
  match jwtDecode users_secret now t with
  | .ok payload => if payload.type ≠ some "refresh" then none else some payload
  | .expiredSignatureError => none
  | .invalidTokenError => none

/-- `JWTTokenManager.get_token_expiration` (jwt_utils.py:186-206): decode
WITHOUT signature verification; `if exp_timestamp:` is Python truthiness,
so a literal `exp` of `0` is reported as `None`; any decode failure is
caught and mapped to `None`. -/
def get_token_expiration (t : Token) : Option Int :=
  match jwtDecodeUnverified t with
  | none => none
  | some payload =>
    match payload.exp with
    | some e => if e = 0 then none else some e
    | none => none

/-- `JWTTokenManager.is_token_expired` (jwt_utils.py:208-226):
`utcnow() >= exp_time` when an expiration is reported, `True` otherwise
(and `True` on any exception). -/
def is_token_expired (now : Int) (t : Token) : Bool :=
  match get_token_expiration t with
  | some e => now ≥ e
  | none => true

/-- `JWTTokenManager.get_token_remaining_time` (jwt_utils.py:228-247):
`exp - now`, clamped below at zero; `None` when no expiration is
reported. -/
def get_token_remaining_time (now : Int) (t : Token) : Option Int :=
  match get_token_expiration t with
  | some e => some (if e - now > 0 then e - now else 0)
  | none => none

end JWTTokenManager

/-- `validate_token_expiration` (jwt_utils.py:313-336): `False` iff
`is_token_expired` (the remaining-time lookup only logs). -/
def validate_token_expiration (now : Int) (t : Token) : Bool :=
  !(JWTTokenManager.is_token_expired now t)

/-- The JSON body + status a `create_error_response` produces for a token
error (`app/utils/response.py:76-104`): `{"success": false, "message": …,
"errors": […]}` with the given status code. -/
structure ErrorResponse where
  status_code : Nat
  success : Bool
  message : String
  errors : List String
deriving DecidableEq, Repr

/-- The message table of `handle_token_error` (jwt_utils.py:276-283). -/
def token_error_message : String → String
  | "expired" => "Access token has expired. Please re-authenticate."
  | "invalid" => "Invalid access token. Please re-authenticate."
  | "missing" => "Access token is required. Please provide a valid token."
  | "malformed" => "Malformed access token. Please re-authenticate."
  | "refresh_expired" => "Refresh token has expired. Please login again."
  | "refresh_invalid" => "Invalid refresh token. Please login again."
  | _ => "Authentication error"

/-- `handle_token_error` (jwt_utils.py:265-310): every branch of the
`if/elif/else` chain builds the same response — status 401,
`success: false`, `errors: [error_type]` (the raw `error_type` string,
and the codes are never rewritten to carry a `token_` marker). -/
def handle_token_error (error_type : String) : ErrorResponse :=
  { status_code := 401, success := false,
    message := token_error_message error_type, errors := [error_type] }

/-! ## `JWTAuthMiddleware` (`app/middleware/auth_middleware.py`) -/

/-- The slice of an inbound HTTP request the middleware reads: the URL
path and the raw `Authorization` header (absent or a string). -/
structure Request where
  path : String
  authorization : Option String
deriving DecidableEq, Repr

/-- The default `excluded_paths` list from `JWTAuthMiddleware.__init__`
(auth_middleware.py:31-45). -/
def excluded_paths : List String :=
  [ "/",
    "/health",
    "/docs",
    "/redoc",
    "/openapi.json",
    "/api/v1/auth/register",
    "/api/v1/auth/jwt/login",
    "/api/v1/auth/jwt/refresh",
    "/api/v1/info",
    "/api/v1/performance",
    "/api/v1/cache/status" ]

/-- Python's `s.startswith(t)` over the characters of the strings. -/
def startsWithChars : List Char → List Char → Bool
  | _, [] => true
  | [], _ :: _ => false
  | c :: cs, d :: ds => c = d && startsWithChars cs ds

/-- Python's `s.lower()` (the strings involved are ASCII). -/
def lowerString (s : String) : String :=
  String.mk (s.toList.map Char.toLower)

/-- `JWTAuthMiddleware._should_skip_auth` (auth_middleware.py:84-103):
exact membership first, then `path.startswith(excluded_path)` over the
whole list. -/
def should_skip_auth (excluded : List String) (path : String) : Bool :=
  if excluded.contains path then true
  else excluded.any (fun e => startsWithChars path.toList e.toList)

/-- Python's `authorization.split(" ", 1)` followed by the two-element
unpacking in `_extract_token`: split at the first space; a string with
no space raises `ValueError` (here `none`). -/
def splitOnFirstSpace : List Char → Option (List Char × List Char)
  | [] => none
  | c :: cs =>
    if c = ' ' then some ([], cs)
    else
      match splitOnFirstSpace cs with
      | some (a, b) => some (c :: a, b)
      | none => none

/-- `JWTAuthMiddleware._extract_token` (auth_middleware.py:105-129): no
header → `None`; no space in the header (`ValueError`) → `None`; scheme
(case-insensitively) different from `bearer` → `None`; else the rest of
the header after the first space. -/
def extract_token (authorization : Option String) : Option String :=
  match authorization with
  | none => none
  | some a =>
    match splitOnFirstSpace a.toList with
    | none => none
    | some (scheme, tok) =>
      if lowerString (String.mk scheme) = "bearer" then some (String.mk tok)
      else none

/-- What `JWTAuthMiddleware.dispatch` does with a request: forward it to
`call_next` (recording the `request.state.user_id` it attached, if any),
or short-circuit with `handle_token_error error_type`. -/
inductive GateResult where
  | forwarded (user_id : Option String)
  | tokenError (error_type : String)
deriving DecidableEq, Repr

/-- `JWTAuthMiddleware._validate_token` (auth_middleware.py:131-146):
`verify_access_token` produced a payload (its internal `try/except`
cannot fire since `verify_access_token` already catches everything). -/
def validate_token (now : Int) (t : Token) : Bool :=
  (JWTTokenManager.verify_access_token now t).isSome

/-- `JWTAuthMiddleware.dispatch` (auth_middleware.py:47-82). `decode`
abstracts the JWT wire format: it is how the `jwt` library reads the
credential string extracted from the header. Order of checks as in the
source: skip-list, missing token (`if not token:` — `None` or the empty
string), `_validate_token` → "invalid", `validate_token_expiration` →
"expired", then forward with `user_id := payload.get("sub")`. -/
def dispatch (excluded : List String) (decode : String → Token) (now : Int)
    (req : Request) : GateResult :=
  if should_skip_auth excluded req.path then .forwarded none
  else
    match extract_token req.authorization with
    | none => .tokenError "missing"
    | some tokStr =>
      if tokStr = "" then .tokenError "missing"
      else
        let t := decode tokStr
        if !(validate_token now t) then .tokenError "invalid"
        else if !(validate_token_expiration now t) then .tokenError "expired"
        else .forwarded ((JWTTokenManager.verify_access_token now t).map Claims.sub)

/-! ## Role endpoints (`app/api/roles.py`) and their storage

Rows mirror the tables of the initial alembic migration
(`f6f4914742e2`): `users`, `roles`, `user_roles`.  The `user_roles`
table carries `UNIQUE (user_id, role_id)`; inserting a second row for a
pair therefore fails at commit with an `IntegrityError`, which
`roles.py` does not catch — modelled as the `dbIntegrityError` outcome. -/

/-- A `users` row (only the fields the role endpoints read). -/
structure UserRow where
  id : String
deriving DecidableEq, Repr

/-- A `roles` row. -/
structure RoleRow where
  id : Nat
  name : String
  description : Option String
  permissions : List String
  is_active : Bool
deriving DecidableEq, Repr

/-- A `user_roles` row. -/
structure UserRoleRow where
  id : Nat
  user_id : String
  role_id : Nat
  assigned_at : Int
  assigned_by : Option String
  is_active : Bool
deriving DecidableEq, Repr

/-- The database state the role endpoints touch, with the sequences
backing the `SERIAL` primary keys. -/
structure Db where
  users : List UserRow
  roles : List RoleRow
  user_roles : List UserRoleRow
  next_role_id : Nat
  next_user_role_id : Nat
deriving DecidableEq, Repr

/-- The fields of `current_user` the role endpoints consult.
`has_admin_role` models `current_user.has_role("admin")` (the `User`
model itself is not part of the sources; only this boolean outcome is
used). -/
structure CurrentUser where
  id : String
  is_superuser : Bool
  has_admin_role : Bool
deriving DecidableEq, Repr

/-- An `HTTPException(status_code, detail)` raised by an endpoint. -/
structure HttpError where
  status_code : Nat
  detail : String
deriving DecidableEq, Repr

/-- How a role endpoint can fail: a raised `HTTPException`, or the
database's `UNIQUE (user_id, role_id)` constraint firing at commit
(uncaught `IntegrityError`, surfaced as a 500 by the framework). -/
inductive ApiFailure where
  | http (e : HttpError)
  | dbIntegrityError
deriving DecidableEq, Repr

/-- The admin gate shared by the mutating role endpoints:
`if not current_user.is_superuser and not current_user.has_role("admin")`. -/
def lacks_role_admin_permission (cu : CurrentUser) : Bool :=
  !cu.is_superuser && !cu.has_admin_role

/-- `RoleBase.validate_name` (schemas/role.py:32-37) together with the
pydantic length bounds on `name` (`min_length=2, max_length=50`):
strip `_` and `-`, require the rest to be nonempty alphanumeric
(`"".isalnum()` is false), then lowercase.  Returns the normalized name,
or `none` for a validation error. -/
def validate_role_name (v : String) : Option String :=
  let stripped := v.toList.filter (fun c => c ≠ '_' ∧ c ≠ '-')
  if 2 ≤ v.length ∧ v.length ≤ 50 ∧ stripped ≠ [] ∧ stripped.all Char.isAlphanum
  then some (lowerString v)
  else none

/-- A validated `RoleCreate` payload (name already normalized by
`validate_role_name`). -/
structure RoleCreate where
  name : String
  description : Option String
  permissions : List String
  is_active : Bool
deriving DecidableEq, Repr

/-- `create_role` (roles.py:41-101): admin gate → 403; existing role with
the same (already normalized) name → 400; else insert the new row.
The `roles.name` column is `UNIQUE`, but the insert follows a same-name
lookup so it cannot violate it. -/
def create_role (cu : CurrentUser) (db : Db) (role_data : RoleCreate) :
    Except ApiFailure (Db × RoleRow) :=
  if lacks_role_admin_permission cu then
    .error (.http ⟨403, "Insufficient permissions to create roles"⟩)
  else if (db.roles.find? (fun r => r.name = role_data.name)).isSome then
    .error (.http ⟨400, "Role with name '" ++ role_data.name ++ "' already exists"⟩)
  else
    let role : RoleRow :=
      { id := db.next_role_id, name := role_data.name,
        description := role_data.description,
        permissions := role_data.permissions,
        is_active := role_data.is_active }
    .ok ({ db with roles := db.roles ++ [role],
                   next_role_id := db.next_role_id + 1 }, role)

/-- `delete_role` (roles.py:294-350): admin gate → 403; unknown id → 404;
then count ALL `user_roles` rows with this `role_id` — the query has no
`is_active` filter — and refuse with 400 while the count is positive;
else delete the role row. -/
def delete_role (cu : CurrentUser) (db : Db) (role_id : Nat) :
    Except ApiFailure Db :=
  if lacks_role_admin_permission cu then
    .error (.http ⟨403, "Insufficient permissions to delete roles"⟩)
  else
    match db.roles.find? (fun r => r.id = role_id) with
    | none =>
      .error (.http ⟨404, "Role with ID " ++ toString role_id ++ " not found"⟩)
    | some _ =>
      if 0 < db.user_roles.countP (fun ur => ur.role_id = role_id) then
        .error (.http ⟨400,
          "Cannot delete role that is assigned to users. Remove all assignments first."⟩)
      else
        .ok { db with roles := db.roles.filter (fun r => ¬(r.id = role_id)) }

/-- The request body of `POST /roles/assign` (`UserRoleAssignment`). -/
structure UserRoleAssignment where
  user_id : String
  role_id : Nat
  assigned_by : Option String
deriving DecidableEq, Repr

/-- `assign_role_to_user` (roles.py:353-440): admin gate → 403; unknown
user or role → 404; inactive role → 400; an existing ACTIVE row for the
pair → 400 "User already has this role assigned" (the lookup filters on
`is_active == True`); otherwise INSERT a brand-new row — there is no
reactivation path, so if any row (active or not) already exists for the
pair, the `UNIQUE (user_id, role_id)` constraint fires at commit. -/
def assign_role_to_user (cu : CurrentUser) (db : Db) (now : Int)
    (assignment : UserRoleAssignment) : Except ApiFailure (Db × UserRoleRow) :=
  if lacks_role_admin_permission cu then
    .error (.http ⟨403, "Insufficient permissions to assign roles"⟩)
  else if (db.users.find? (fun u => u.id = assignment.user_id)).isNone then
    .error (.http ⟨404, "User with ID " ++ assignment.user_id ++ " not found"⟩)
  else
    match db.roles.find? (fun r => r.id = assignment.role_id) with
    | none =>
      .error (.http ⟨404,
        "Role with ID " ++ toString assignment.role_id ++ " not found"⟩)
    | some role =>
      if !role.is_active then
        .error (.http ⟨400, "Cannot assign inactive role"⟩)
      else if (db.user_roles.find? (fun ur =>
          ur.user_id = assignment.user_id ∧ ur.role_id = assignment.role_id ∧
          ur.is_active = true)).isSome then
        .error (.http ⟨400, "User already has this role assigned"⟩)
      else if db.user_roles.any (fun ur =>
          ur.user_id = assignment.user_id ∧ ur.role_id = assignment.role_id) then
        .error .dbIntegrityError
      else
        let row : UserRoleRow :=
          { id := db.next_user_role_id, user_id := assignment.user_id,
            role_id := assignment.role_id, assigned_at := now,
            assigned_by := some (assignment.assigned_by.getD cu.id),
            is_active := true }
        .ok ({ db with user_roles := db.user_roles ++ [row],
                       next_user_role_id := db.next_user_role_id + 1 }, row)

/-- `remove_role_from_user` (roles.py:443-490): admin gate → 403; unknown
assignment id → 404; else set `is_active := False` on that row (the row
is kept, never deleted). -/
def remove_role_from_user (cu : CurrentUser) (db : Db) (assignment_id : Nat) :
    Except ApiFailure Db :=
  if lacks_role_admin_permission cu then
    .error (.http ⟨403, "Insufficient permissions to remove role assignments"⟩)
  else if (db.user_roles.find? (fun ur => ur.id = assignment_id)).isNone then
    .error (.http ⟨404,
      "Role assignment with ID " ++ toString assignment_id ++ " not found"⟩)
  else
    .ok { db with user_roles := db.user_roles.map (fun ur =>
            if ur.id = assignment_id then { ur with is_active := false } else ur) }

/-! # Theorems -/

open JWTTokenManager

/-- C1: the claim says every request whose path is outside the allow-list
is short-circuited with the missing-token error when it carries no
`Authorization` header, and that the role endpoints are not matched by
any allow-listed entry.  In the code, `excluded_paths` contains `"/"`
and `_should_skip_auth` does a `startswith` check, so EVERY path
(every HTTP path begins with `/`) is allow-listed: the gate forwards a
tokenless request to `/api/v1/roles/` instead of returning the
missing-token error, and the token-checking part of `dispatch` is
unreachable. -/
theorem gate_skips_every_path_forwards_tokenless_request
    (p : String) (h : p.toList.head? = some '/') :
    should_skip_auth excluded_paths p = true ∧
    ∀ (decode : String → Token) (now : Int) (auth : Option String),
      dispatch excluded_paths decode now { path := p, authorization := auth } =
        .forwarded none := by
  have hskip : should_skip_auth excluded_paths p = true := by
    unfold should_skip_auth
    split
    · rfl
    · cases hp : p.toList with
      | nil => rw [hp] at h; exact absurd h (by simp)
      | cons c cs =>
        rw [hp] at h
        have hc : c = '/' := by simpa using h
        subst hc
        simp [excluded_paths, hp, startsWithChars]
  refine ⟨hskip, ?_⟩
  intro decode now auth
  unfold dispatch
  rw [hskip]
  rfl

/-- Witness for C1: the protected role-listing path, requested with no
`Authorization` header, is forwarded without any token check. -/
theorem gate_skips_every_path_witness :
    "/api/v1/roles/".toList.head? = some '/' ∧
    (should_skip_auth excluded_paths "/api/v1/roles/" = true ∧
     ∀ (decode : String → Token) (now : Int) (auth : Option String),
       dispatch excluded_paths decode now
         { path := "/api/v1/roles/", authorization := auth } = .forwarded none) :=
  ⟨rfl, gate_skips_every_path_forwards_tokenless_request "/api/v1/roles/" rfl⟩

/-- C8: issue-then-verify round-trip — for every subject `s` and time
`now`, creating an access token at `now` and immediately verifying it
succeeds with a payload whose `sub` is `s` and whose `type` is
`"access"`. -/
theorem access_token_round_trip (s : String) (now : Int) :
    ∃ p : Claims,
      verify_access_token now (create_access_token s now none) = some p ∧
      p.sub = s ∧ p.type = some "access" := by
  refine ⟨{ sub := s, type := some "access",
            exp := some (now + 60 * access_token_expire_minutes), iat := now },
          ?_, rfl, rfl⟩
  have h : ¬(now + 60 * access_token_expire_minutes < now) := by
    unfold access_token_expire_minutes
    omega
  unfold verify_access_token create_access_token jwtDecode
  simp [h]

/-- C6: trust-domain separation — a refresh token (signed with
`users_secret`, `type` `"refresh"`) fails access verification, and it
fails on the signature check (`InvalidTokenError`, the `Invalid`
outcome), not on expiry; symmetrically an access token fails refresh
verification.  Moreover access verification only ever accepts tokens
signed with `secret_key` whose `type` claim is `"access"`, and refresh
verification only tokens signed with `users_secret` whose `type` claim
is `"refresh"`. -/
theorem refresh_access_trust_domains_disjoint (s : String) (now iat : Int) :
    verify_access_token now (create_refresh_token s iat) = none ∧
    jwtDecode secret_key now (create_refresh_token s iat) = .invalidTokenError ∧
    verify_refresh_token now (create_access_token s iat none) = none ∧
    jwtDecode users_secret now (create_access_token s iat none) = .invalidTokenError ∧
    (∀ (c : Claims) (sec : String) (p : Claims),
      verify_access_token now (.signed c sec) = some p →
        sec = secret_key ∧ c.type = some "access") ∧
    (∀ (c : Claims) (sec : String) (p : Claims),
      verify_refresh_token now (.signed c sec) = some p →
        sec = users_secret ∧ c.type = some "refresh") := by
  have hsec : users_secret ≠ secret_key := by decide
  have hsec2 : secret_key ≠ users_secret := by decide
  refine ⟨?_, ?_, ?_, ?_, ?_, ?_⟩
  · unfold verify_access_token create_refresh_token jwtDecode
    simp [hsec]
  · unfold create_refresh_token jwtDecode
    simp [hsec]
  · unfold verify_refresh_token create_access_token jwtDecode
    simp [hsec2]
  · unfold create_access_token jwtDecode
    simp [hsec2]
  · intro c sec p h
    simp only [verify_access_token, jwtDecode] at h
    by_cases hs : sec = secret_key
    · subst hs
      rw [if_pos rfl] at h
      refine ⟨rfl, ?_⟩
      rcases hexp : c.exp with _ | e <;> rw [hexp] at h
      · by_cases hty : c.type = some "access"
        · exact hty
        · simp [hty] at h
      · by_cases he : e < now
        · simp [he] at h
        · by_cases hty : c.type = some "access"
          · exact hty
          · simp [he, hty] at h
    · rw [if_neg hs] at h
      exact absurd h (by simp)
  · intro c sec p h
    simp only [verify_refresh_token, jwtDecode] at h
    by_cases hs : sec = users_secret
    · subst hs
      rw [if_pos rfl] at h
      refine ⟨rfl, ?_⟩
      rcases hexp : c.exp with _ | e <;> rw [hexp] at h
      · by_cases hty : c.type = some "refresh"
        · exact hty
        · simp [hty] at h
      · by_cases he : e < now
        · simp [he] at h
        · by_cases hty : c.type = some "refresh"
          · exact hty
          · simp [he, hty] at h
    · rw [if_neg hs] at h
      exact absurd h (by simp)

/-- Witness for C6 at a concrete subject and times. -/
theorem refresh_access_trust_domains_disjoint_witness :
    verify_access_token 0 (create_refresh_token "u1" 0) = none ∧
    jwtDecode secret_key 0 (create_refresh_token "u1" 0) = .invalidTokenError :=
  ⟨(refresh_access_trust_domains_disjoint "u1" 0 0).1,
   (refresh_access_trust_domains_disjoint "u1" 0 0).2.1⟩

/-- C10: the expiry check fails closed — `is_token_expired` (a total
function here, as the source catches every exception) returns `true` on
any undecodable input and on any token without an `exp` claim, and
`verify_access_token` always returns either a payload or `None`. -/
theorem is_token_expired_fails_closed (now : Int) :
    is_token_expired now Token.garbage = true ∧
    (∀ (c : Claims) (s : String), c.exp = none →
      is_token_expired now (Token.signed c s) = true) ∧
    (∀ t : Token, verify_access_token now t = none ∨
      ∃ p, verify_access_token now t = some p) := by
  refine ⟨rfl, ?_, ?_⟩
  · intro c s hexp
    simp only [is_token_expired, get_token_expiration, jwtDecodeUnverified, hexp]
  · intro t
    rcases h : verify_access_token now t with _ | p
    · exact Or.inl rfl
    · exact Or.inr ⟨p, rfl⟩

/-- C2 counterexample: a token signed with the access secret, `type`
`"access"`, whose `exp` (3540) lies one minute before `now` (3600).
The claim says verification fails with an `Expired` outcome distinct
from `Invalid` and that the gate returns the dedicated "expired" error.
In the code `verify_access_token` returns `None` for it — the very same
outcome it returns for a forged token — and the gate (run on a
non-allow-listed path) answers with the "invalid" error, not the
"expired" one. -/
theorem expired_token_conflated_counterexample :
    verify_access_token 3600
      (Token.signed ⟨"u1", some "access", some 3540, 0⟩ secret_key) = none ∧
    verify_access_token 3600 Token.garbage = none ∧
    dispatch [] (fun _ => Token.signed ⟨"u1", some "access", some 3540, 0⟩ secret_key)
      3600 { path := "/api/v1/users/me", authorization := some "Bearer x" } =
      .tokenError "invalid" ∧
    dispatch [] (fun _ => Token.signed ⟨"u1", some "access", some 3540, 0⟩ secret_key)
      3600 { path := "/api/v1/users/me", authorization := some "Bearer x" } ≠
      .tokenError "expired" :=
  ⟨rfl, rfl, rfl, by decide⟩

/-- C2 amended: verifying a well-signed, well-typed access token whose
`exp` is in the past yields `None` — the same conflated outcome as for
an invalid token — and any request that reaches the token checks with
such a token is answered with the "invalid" error response, never the
"expired" one (whose body is a distinct response). -/
theorem expired_access_token_maps_to_invalid_error
    (c : Claims) (e now : Int)
    (hty : c.type = some "access") (hexp : c.exp = some e) (hlt : e < now) :
    verify_access_token now (.signed c secret_key) = none ∧
    handle_token_error "invalid" ≠ handle_token_error "expired" ∧
    ∀ (excluded : List String) (decode : String → Token) (req : Request)
      (tokStr : String),
      should_skip_auth excluded req.path = false →
      extract_token req.authorization = some tokStr → tokStr ≠ "" →
      decode tokStr = .signed c secret_key →
      dispatch excluded decode now req = .tokenError "invalid" := by
  have hv : verify_access_token now (.signed c secret_key) = none := by
    simp [verify_access_token, jwtDecode, hexp, hlt]
  refine ⟨hv, by decide, ?_⟩
  intro excluded decode req tokStr hskip hex hne hdec
  unfold dispatch
  rw [hskip, hex]
  simp only [Bool.false_eq_true, if_false]
  rw [if_neg hne, hdec]
  simp [validate_token, hv]

/-- Witness for the C2 amended theorem at the counterexample's inputs. -/
theorem expired_access_token_maps_to_invalid_error_witness :
    verify_access_token 3600
      (Token.signed ⟨"u1", some "access", some 3540, 0⟩ secret_key) = none :=
  (expired_access_token_maps_to_invalid_error
    ⟨"u1", some "access", some 3540, 0⟩ 3540 3600 rfl rfl (by decide)).1

/-- C4 counterexample: a token "signed" by an attacker (its signature
does NOT verify under either secret — access verification rejects it)
whose embedded `exp` is far in the future.  The claim says the read-only
expiry queries verify the signature before using any claim; in the code
they decode with `verify_signature: False`, so the attacker-supplied
expiry is reported: the token is declared unexpired with the attacker's
`exp` and remaining time. -/
theorem unverified_exp_reflected_counterexample :
    verify_access_token 0
      (Token.signed ⟨"victim", some "access", some 9999999999, 0⟩ "attacker-key") =
      none ∧
    get_token_expiration
      (Token.signed ⟨"victim", some "access", some 9999999999, 0⟩ "attacker-key") =
      some 9999999999 ∧
    is_token_expired 0
      (Token.signed ⟨"victim", some "access", some 9999999999, 0⟩ "attacker-key") =
      false ∧
    get_token_remaining_time 0
      (Token.signed ⟨"victim", some "access", some 9999999999, 0⟩ "attacker-key") =
      some 9999999999 :=
  ⟨rfl, rfl, rfl, rfl⟩

/-- C4 amended: the read-only expiry queries decode the token WITHOUT
signature verification — their results depend only on the embedded
claims and not on the signing secret (so an attacker-supplied `exp` is
trusted whenever the token is structurally well formed; a literal `exp`
of `0` is the one value reported as absent, through Python truthiness).
The spec itself flags this unverified decode as a defect of the
reference behavior (§4.4, §9). -/
theorem expiry_queries_ignore_signature
    (c : Claims) (s1 s2 : String) (now : Int) :
    get_token_expiration (.signed c s1) = get_token_expiration (.signed c s2) ∧
    is_token_expired now (.signed c s1) = is_token_expired now (.signed c s2) ∧
    get_token_remaining_time now (.signed c s1) =
      get_token_remaining_time now (.signed c s2) ∧
    (∀ e : Int, c.exp = some e → e ≠ 0 →
      get_token_expiration (.signed c s1) = some e) := by
  refine ⟨rfl, rfl, rfl, ?_⟩
  intro e hexp hne
  simp only [get_token_expiration, jwtDecodeUnverified, hexp, if_neg hne]

/-- Witness for the C4 amended theorem: the attacker token's `exp` is
reported verbatim. -/
theorem expiry_queries_ignore_signature_witness :
    get_token_expiration
      (Token.signed ⟨"victim", some "access", some 9999999999, 0⟩ "attacker-key") =
      some 9999999999 :=
  (expiry_queries_ignore_signature
      ⟨"victim", some "access", some 9999999999, 0⟩ "attacker-key" "x" 0).2.2.2
    9999999999 rfl (by decide)

/-- C7 counterexample: a request to a role endpooint carrying a
`Basic`-scheme `Authorization` header.  The claim says the gate rejects
it with a 401 whose error code is `token_malformed`; the shipped gate
(default excluded list) forwards it with no error at all, `_extract_token`
maps the non-Bearer header to `None` (indistinguishable from a missing
header), and even `handle_token_error`'s own malformed branch emits the
bare code `"malformed"`, which is not in the claimed code set. -/
theorem default_gate_forwards_malformed_header_counterexample :
    dispatch excluded_paths (fun _ => Token.garbage) 0
      { path := "/api/v1/roles/", authorization := some "Basic dXNlcjpwYXNz" } =
      .forwarded none ∧
    extract_token (some "Basic dXNlcjpwYXNz") = none ∧
    handle_token_error "malformed" =
      ⟨401, false, "Malformed access token. Please re-authenticate.", ["malformed"]⟩ ∧
    "malformed" ∉
      (["token_missing", "token_malformed", "token_invalid", "token_expired"] :
        List String) :=
  ⟨rfl, rfl, rfl, by decide⟩

/-- C7 amended: with the default excluded list the gate rejects nothing
(see C1); for a gate whose excluded list does not match the request's
path, a present but non-Bearer or unparsable `Authorization` header is
answered with the missing-token outcome — status 401, body
`{success: false, message, errors: ["missing"]}` — i.e. malformed
headers are collapsed into the missing-token branch and no `token_`
marker is added; every token-error code the gate can emit lies in
`{missing, invalid, expired}`. -/
theorem malformed_header_collapses_to_missing
    (excluded : List String) (decode : String → Token) (now : Int)
    (req : Request) (a : String)
    (hskip : should_skip_auth excluded req.path = false)
    (hauth : req.authorization = some a)
    (hbad : extract_token (some a) = none) :
    dispatch excluded decode now req = .tokenError "missing" ∧
    handle_token_error "missing" =
      ⟨401, false, "Access token is required. Please provide a valid token.",
       ["missing"]⟩ ∧
    ∀ (ex : List String) (d : String → Token) (n : Int) (r : Request) (e : String),
      dispatch ex d n r = .tokenError e →
      e = "missing" ∨ e = "invalid" ∨ e = "expired" := by
  refine ⟨?_, rfl, ?_⟩
  · unfold dispatch
    rw [hskip, hauth, hbad]
    rfl
  · intro ex d n r e h
    unfold dispatch at h
    split at h
    · exact absurd h (by simp)
    · split at h
      · exact Or.inl (by injection h with h'; exact h'.symm)
      · split at h
        · exact Or.inl (by injection h with h'; exact h'.symm)
        · dsimp only at h
          split at h
          · exact Or.inr (Or.inl (by injection h with h'; exact h'.symm))
          · split at h
            · exact Or.inr (Or.inr (by injection h with h'; exact h'.symm))
            · exact absurd h (by simp)

/-- Witness for the C7 amended theorem: a `Basic`-scheme header on a
path outside a (non-degenerate) excluded list yields the missing-token
error. -/
theorem malformed_header_collapses_to_missing_witness :
    dispatch [] (fun _ => Token.garbage) 0
      { path := "/api/v1/roles/", authorization := some "Basic dXNlcjpwYXNz" } =
      .tokenError "missing" :=
  (malformed_header_collapses_to_missing [] (fun _ => Token.garbage) 0
    { path := "/api/v1/roles/", authorization := some "Basic dXNlcjpwYXNz" }
    "Basic dXNlcjpwYXNz" rfl rfl rfl).1

/-- Witness for C10: a well-signed token with no `exp` claim is reported
expired. -/
theorem is_token_expired_fails_closed_witness :
    (Claims.mk "u1" (some "access") none 0).exp = none ∧
    is_token_expired 0 (Token.signed (Claims.mk "u1" (some "access") none 0) secret_key) = true :=
  ⟨rfl, (is_token_expired_fails_closed 0).2.1
          (Claims.mk "u1" (some "access") none 0) secret_key rfl⟩

/-- C3: the claim (and spec §4.2) says re-granting a revoked role
reactivates the existing `user_roles` row.  In the code, the
duplicate-grant conflict works (first conjunct), but after a revoke the
lookup — which filters on `is_active == True` — misses the inactive row
and the endpoint INSERTs a brand-new row for the same
`(user_id, role_id)` pair, which the migration's
`UNIQUE (user_id, role_id)` constraint rejects at commit: an uncaught
`IntegrityError` instead of a successful reactivation. -/
theorem revoke_then_assign_hits_unique_constraint :
    assign_role_to_user ⟨"admin", true, false⟩
      ⟨[⟨"u1"⟩], [⟨1, "staff", none, [], true⟩],
       [⟨1, "u1", 1, 0, some "admin", true⟩], 2, 2⟩ 10 ⟨"u1", 1, none⟩ =
      .error (.http ⟨400, "User already has this role assigned"⟩) ∧
    remove_role_from_user ⟨"admin", true, false⟩
      ⟨[⟨"u1"⟩], [⟨1, "staff", none, [], true⟩],
       [⟨1, "u1", 1, 0, some "admin", true⟩], 2, 2⟩ 1 =
      .ok ⟨[⟨"u1"⟩], [⟨1, "staff", none, [], true⟩],
           [⟨1, "u1", 1, 0, some "admin", false⟩], 2, 2⟩ ∧
    assign_role_to_user ⟨"admin", true, false⟩
      ⟨[⟨"u1"⟩], [⟨1, "staff", none, [], true⟩],
       [⟨1, "u1", 1, 0, some "admin", false⟩], 2, 2⟩ 20 ⟨"u1", 1, none⟩ =
      .error .dbIntegrityError :=
  ⟨rfl, rfl, rfl⟩

/-- C5 counterexample: a role referenced by exactly one INACTIVE
assignment row.  No active Assignment references it — the claim says
its deletion succeeds — yet `delete_role` counts ALL rows (its query has
no `is_active` filter) and refuses with the conflict error. -/
theorem delete_role_blocked_by_inactive_assignment_counterexample :
    ([⟨1, "u1", 1, 0, some "admin", false⟩] : List UserRoleRow).countP
        (fun ur => ur.role_id = 1 ∧ ur.is_active = true) = 0 ∧
    delete_role ⟨"admin", true, false⟩
      ⟨[⟨"u1"⟩], [⟨1, "staff", none, [], true⟩],
       [⟨1, "u1", 1, 0, some "admin", false⟩], 2, 2⟩ 1 =
      .error (.http ⟨400,
        "Cannot delete role that is assigned to users. Remove all assignments first."⟩) :=
  ⟨rfl, rfl⟩

/-- Deactivating one assignment row (what `remove_role_from_user` does)
changes no row's `role_id`, so the per-role row count is unchanged. -/
theorem countP_role_id_stable_under_deactivation
    (l : List UserRoleRow) (aid rid : Nat) :
    (l.map (fun ur =>
        if ur.id = aid then { ur with is_active := false } else ur)).countP
      (fun ur => ur.role_id = rid) =
    l.countP (fun ur => ur.role_id = rid) := by
  induction l with
  | nil => rfl
  | cons x xs ih =>
    simp only [List.map_cons, List.countP_cons, ih]
    by_cases hx : x.id = aid <;> simp [hx]

/-- C5 amended: `delete_role` is blocked exactly while ANY `user_roles`
row — active or inactive — references the role, and succeeds once no row
does; since `remove_role_from_user` only deactivates its row (never
deletes it), revoking assignments leaves the per-role row count
unchanged and does not unblock deletion. -/
theorem delete_role_blocked_iff_any_assignment_row
    (cu : CurrentUser) (db : Db) (role_id : Nat) (r : RoleRow)
    (hadmin : lacks_role_admin_permission cu = false)
    (hrole : db.roles.find? (fun x => x.id = role_id) = some r) :
    (0 < db.user_roles.countP (fun ur => ur.role_id = role_id) →
       delete_role cu db role_id = .error (.http ⟨400,
         "Cannot delete role that is assigned to users. Remove all assignments first."⟩)) ∧
    (db.user_roles.countP (fun ur => ur.role_id = role_id) = 0 →
       delete_role cu db role_id =
         .ok { db with roles := db.roles.filter (fun x => ¬(x.id = role_id)) }) ∧
    (∀ (aid : Nat) (db' : Db), remove_role_from_user cu db aid = .ok db' →
       db'.user_roles.countP (fun ur => ur.role_id = role_id) =
         db.user_roles.countP (fun ur => ur.role_id = role_id)) := by
  refine ⟨?_, ?_, ?_⟩
  · intro hpos
    simp only [delete_role, hadmin, Bool.false_eq_true, if_false, hrole]
    rw [if_pos hpos]
  · intro hzero
    simp only [delete_role, hadmin, Bool.false_eq_true, if_false, hrole]
    rw [if_neg (by omega)]
  · intro aid db' h
    simp only [remove_role_from_user, hadmin, Bool.false_eq_true, if_false] at h
    split at h
    · exact absurd h (by simp)
    · injection h with h'
      rw [← h']
      exact countP_role_id_stable_under_deactivation db.user_roles aid role_id

/-- Witness for the C5 amended theorem: with one (inactive) row present
the count is positive and deletion is refused. -/
theorem delete_role_blocked_iff_any_assignment_row_witness :
    delete_role ⟨"admin", true, false⟩
      ⟨[⟨"u1"⟩], [⟨1, "staff", none, [], true⟩],
       [⟨1, "u1", 1, 0, some "admin", false⟩], 2, 2⟩ 1 =
      .error (.http ⟨400,
        "Cannot delete role that is assigned to users. Remove all assignments first."⟩) :=
  (delete_role_blocked_iff_any_assignment_row ⟨"admin", true, false⟩
      ⟨[⟨"u1"⟩], [⟨1, "staff", none, [], true⟩],
       [⟨1, "u1", 1, 0, some "admin", false⟩], 2, 2⟩ 1
      ⟨1, "staff", none, [], true⟩ rfl rfl).1 (by decide)

/-- C9: role names are normalized to lower case by
`RoleBase.validate_name` before the uniqueness check, so after creating
a role from raw name `n`, creating one from raw name `m` fails with the
conflict error whenever `m` equals `n` up to letter case, and succeeds
for a genuinely different (fresh) name. -/
theorem role_name_case_insensitive_unique
    (cu : CurrentUser) (db db1 : Db) (r1 : RoleRow) (n m nn nm : String)
    (hadmin : lacks_role_admin_permission cu = false)
    (hn : validate_role_name n = some nn)
    (hm : validate_role_name m = some nm)
    (hc : create_role cu db ⟨nn, none, [], true⟩ = .ok (db1, r1)) :
    nn = lowerString n ∧ nm = lowerString m ∧
    (lowerString m = lowerString n →
       create_role cu db1 ⟨nm, none, [], true⟩ =
         .error (.http ⟨400, "Role with name '" ++ nm ++ "' already exists"⟩)) ∧
    (lowerString m ≠ lowerString n → (∀ r ∈ db.roles, r.name ≠ nm) →
       ∃ db2 r2, create_role cu db1 ⟨nm, none, [], true⟩ = .ok (db2, r2)) := by
  have hnn : nn = lowerString n := by
    unfold validate_role_name at hn
    dsimp only at hn
    split at hn
    · exact (Option.some_injective _ hn).symm
    · exact absurd hn (by simp)
  have hnm : nm = lowerString m := by
    unfold validate_role_name at hm
    dsimp only at hm
    split at hm
    · exact (Option.some_injective _ hm).symm
    · exact absurd hm (by simp)
  simp only [create_role, hadmin, Bool.false_eq_true, if_false] at hc
  by_cases hf : (db.roles.find? (fun r => r.name = nn)).isSome
  · rw [if_pos hf] at hc
    exact absurd hc (by simp)
  · rw [if_neg hf] at hc
    injection hc with hc'
    injection hc' with hdb1 hr1
    subst hdb1
    subst hr1
    refine ⟨hnn, hnm, ?_, ?_⟩
    · intro hcase
      have hnm_nn : nm = nn := by rw [hnm, hnn, hcase]
      have hmem : ((db.roles ++
          [({ id := db.next_role_id, name := nn, description := none,
              permissions := [], is_active := true } : RoleRow)]).find?
            (fun r => r.name = nm)).isSome = true := by
        rw [List.find?_isSome]
        exact ⟨_, List.mem_append_right _ (List.mem_singleton.mpr rfl),
               by simp [hnm_nn]⟩
      simp only [create_role, hadmin, Bool.false_eq_true, if_false, hmem, if_true]
    · intro hcase hfresh
      have hnone : (db.roles ++
          [({ id := db.next_role_id, name := nn, description := none,
              permissions := [], is_active := true } : RoleRow)]).find?
            (fun r => r.name = nm) = none := by
        rw [List.find?_eq_none]
        intro x hx
        rcases List.mem_append.mp hx with hx1 | hx2
        · simp [hfresh x hx1]
        · have hx1 : x =
              ({ id := db.next_role_id, name := nn, description := none,
                 permissions := [], is_active := true } : RoleRow) :=
            List.mem_singleton.mp hx2
          subst hx1
          simp only [decide_eq_true_eq]
          rw [hnn, hnm]
          exact fun hcontra => hcase hcontra.symm
      refine ⟨{ users := db.users,
                roles := (db.roles ++
                  [({ id := db.next_role_id, name := nn, description := none,
                      permissions := [], is_active := true } : RoleRow)]) ++
                  [({ id := db.next_role_id + 1, name := nm, description := none,
                      permissions := [], is_active := true } : RoleRow)],
                user_roles := db.user_roles,
                next_role_id := db.next_role_id + 1 + 1,
                next_user_role_id := db.next_user_role_id },
              ({ id := db.next_role_id + 1, name := nm, description := none,
                 permissions := [], is_active := true } : RoleRow), ?_⟩
      simp only [create_role, hadmin, Bool.false_eq_true, if_false]
      dsimp only
      rw [hnone]
      rfl

/-- Witness for C9: creating "Admin" then "ADMIN" — both normalize to
"admin", and the second creation is refused as a duplicate. -/
theorem role_name_case_insensitive_unique_witness :
    validate_role_name "Admin" = some "admin" ∧
    validate_role_name "ADMIN" = some "admin" ∧
    create_role ⟨"root", true, false⟩ ⟨[], [], [], 1, 1⟩ ⟨"admin", none, [], true⟩ =
      .ok (⟨[], [⟨1, "admin", none, [], true⟩], [], 2, 1⟩,
           ⟨1, "admin", none, [], true⟩) ∧
    ("admin" = lowerString "Admin" ∧ "admin" = lowerString "ADMIN" ∧
     (lowerString "ADMIN" = lowerString "Admin" →
        create_role ⟨"root", true, false⟩
          ⟨[], [⟨1, "admin", none, [], true⟩], [], 2, 1⟩ ⟨"admin", none, [], true⟩ =
          .error (.http ⟨400, "Role with name '" ++ "admin" ++ "' already exists"⟩)) ∧
     (lowerString "ADMIN" ≠ lowerString "Admin" →
        (∀ r ∈ ([] : List RoleRow), r.name ≠ "admin") →
        ∃ db2 r2, create_role ⟨"root", true, false⟩
          ⟨[], [⟨1, "admin", none, [], true⟩], [], 2, 1⟩ ⟨"admin", none, [], true⟩ =
          .ok (db2, r2))) :=
  ⟨rfl, rfl, rfl,
   role_name_case_insensitive_unique ⟨"root", true, false⟩ ⟨[], [], [], 1, 1⟩
     ⟨[], [⟨1, "admin", none, [], true⟩], [], 2, 1⟩ ⟨1, "admin", none, [], true⟩
     "Admin" "ADMIN" "admin" "admin" rfl rfl rfl rfl⟩

end AiJobReadiness
